import Mathlib

/-!
Verification of the openp1 repository fragments:
  src/flight/Modules/SLAM/slam.c                       (periodic fusion/overlay task)
  src/flight/targets/boards/gpsplatinum/bootloader/pios_board.c  (board bring-up)

Shallow embedding conventions:
  - C float/double arithmetic on telemetry and settings values is modelled by
    exact rationals; the horizon geometry is stated polymorphically over a
    linear ordered field so that the same definitions can be instantiated at
    the reals (for the trigonometric claims) and at the rationals (inside the
    executable loop model).
  - The uint32_t frame counter of slamTask is modelled as a natural number
    reduced modulo 2^32 at each increment, exactly as C unsigned arithmetic.
  - Scheduler ticks are modelled as unbounded naturals: the tick type width
    is FreeRTOS configuration that is not part of this repository, and the
    specification describes ticks as plain counts at 1000 ticks per second.
  - External collaborators (OpenCV capture and drawing, the RTOS delay, the
    telemetry object bus, the fusion backend) are modelled through explicit
    inputs and effect records, following the interface description of the
    specification (its section 6), since their code is not in the repository.
-/

/-- Modelled from the spec: attitudeactual.h (generated UAVObject header) is
not under src/. An OrientationSample is the record {roll, pitch, yaw};
the float fields are modelled as exact rationals. -/
structure AttitudeActualData where
  Roll : ℚ
  Pitch : ℚ
  Yaw : ℚ
deriving DecidableEq, Repr

/-- Modelled from the spec: slamsettings.h (generated UAVObject header) is
not under src/. FusionSettings = {frame width, frame height, frame rate};
numeric fields modelled as exact rationals.  FrameDimensionsX and
FrameDimensionsY are the two entries of the FrameDimensions array of the
source, indexed by SLAMSETTINGS_FRAMEDIMENSIONS_X and _Y. -/
structure SLAMSettingsData where
  FrameDimensionsX : ℚ
  FrameDimensionsY : ℚ
  FrameRate : ℚ
deriving DecidableEq, Repr

/-- 2^32, the modulus of C uint32_t arithmetic (slam.c: uint32_t frame). -/
def UINT32_MOD : ℕ := 4294967296

/-- slam.c line 145:
portTickType increment = ((float)(1000./settings.FrameRate)) / portTICK_RATE_MS;
At 1000 ticks per second portTICK_RATE_MS = 1.  Assigning the float quotient
to the unsigned integer tick type truncates toward zero, so for a positive
frame rate the increment is the floor of 1000 / FrameRate. -/
def computeIncrement (frameRate : ℚ) : ℕ :=
  (⌊(1000 : ℚ) / frameRate⌋).toNat

/-- OpenCV CvPoint, stated polymorphically over the coordinate field.
Modelled from the spec: OpenCV is an external collaborator; the geometry of
the overlay is specified over exact coordinates (spec section 4.1). -/
structure CvPoint (α : Type) where
  x : α
  y : α
deriving DecidableEq, Repr

/-- OpenCV cvPoint constructor. -/
def cvPoint {α : Type} (x y : α) : CvPoint α := ⟨x, y⟩

/-- slam.c lines 190-195: the overlay center point,
( width/2 , height/2 + Pitch * height/60 ). -/
def horizonCenter {α : Type} [LinearOrderedField α] (w h pitch : α) : CvPoint α :=
  cvPoint (w / 2) (h / 2 + pitch * h / 60)

/-- slam.c lines 197-207: the initial value of the variable right, the
half-length offset vector of the horizon line before the center is added:
( fmin(w,h) * cos(DEG2RAD*Roll) / 3 , -fmin(w,h) * sin(DEG2RAD*Roll) / 3 ).
The arguments c and s stand for the cosine and sine of DEG2RAD * Roll. -/
def horizonRightOffset {α : Type} [LinearOrderedField α] (w h c s : α) : CvPoint α :=
  cvPoint (min w h * c / 3) (-(min w h * s / 3))

/-- slam.c line 208: CvPoint left = cvPoint(center.x-right.x, center.y-right.y). -/
def horizonLeftPoint {α : Type} [LinearOrderedField α] (w h pitch c s : α) : CvPoint α :=
  cvPoint ((horizonCenter w h pitch).x - (horizonRightOffset w h c s).x)
          ((horizonCenter w h pitch).y - (horizonRightOffset w h c s).y)

/-- slam.c lines 209-210: right.x += center.x; right.y += center.y. -/
def horizonRightPoint {α : Type} [LinearOrderedField α] (w h pitch c s : α) : CvPoint α :=
  cvPoint ((horizonRightOffset w h c s).x + (horizonCenter w h pitch).x)
          ((horizonRightOffset w h c s).y + (horizonCenter w h pitch).y)

/-- Task-local state of slamTask (slam.c lines 117-145): the uint32 frame
counter (kept reduced modulo 2^32), the start tick and per-frame increment
recorded once before the loop, the current and last frame buffer pointers
(an Option over buffer contents, none modelling a NULL IplImage pointer),
the CvCapture pointer, and the microsecond timestamp timeval. -/
structure SlamTaskState where
  frame : ℕ
  startTime : ℕ
  increment : ℕ
  currentFrame : Option ℕ
  lastFrame : Option ℕ
  videoSource : Option ℕ
  timeval : ℕ
deriving DecidableEq, Repr

/-- Per-iteration inputs read from external collaborators during one pass of
the main loop: the attitude sample returned by AttitudeActualGet, the global
settings snapshot as it stands at this iteration (SettingsUpdatedCb may have
rewritten it between iterations), the frame returned by cvRetrieveFrame
(none models a NULL return or an absent call), the values returned by the C
library cos and sin at DEG2RAD * Roll (modelled as inputs because the
transcendental library functions are external), and the number of timer
ticks that this iteration of processing consumes. -/
structure IterEnv where
  attitude : AttitudeActualData
  settings : SLAMSettingsData
  retrievedFrame : Option ℕ
  cosRoll : ℚ
  sinRoll : ℚ
  procTicks : ℕ
deriving DecidableEq, Repr

/-- Observable effects of one pass of the main loop body: the absolute tick
passed to the scheduler delay (vTaskDelayUntil target, spec section 4.1 step
3), whether backgroundGrabFrame and cvRetrieveFrame were called, the x field
of the opencvslam_input record passed to opencvslam_run, whether the old
last frame was released, the overlay geometry drawn by cvLine (none when the
whole display block is skipped), and whether cvShowImage ran. -/
structure IterEffects where
  wakeTarget : ℕ
  grabbed : Bool
  retrieved : Bool
  fusionInputX : ℤ
  releasedLast : Bool
  overlay : Option (CvPoint ℚ × CvPoint ℚ × CvPoint ℚ)
  displayed : Bool
deriving DecidableEq, Repr

/-- One pass of the main task loop of slamTask (slam.c lines 156-218):
frame++ (uint32 wraparound), suspension until the absolute target tick
startTime + frame * increment (currentTime is overwritten with startTime
before the delay call, so the target never depends on earlier iteration
durations), timeval update, guarded frame grab and retrieve, the fusion call
with the zero-initialized input record, release of the previous frame (the
release call nulls the pointer), and - only when a current frame exists -
the clone into lastFrame, the horizon overlay geometry computed from the
settings snapshot and attitude sample of this iteration, and the display. -/
def slamStep (env : IterEnv) (st : SlamTaskState) : SlamTaskState × IterEffects :=
  let frame := (st.frame + 1) % UINT32_MOD
  let wakeTarget := st.startTime + frame * st.increment
  let grabbed := st.videoSource.isSome
  let currentFrame := if st.videoSource.isSome then env.retrievedFrame else st.currentFrame
  let w := env.settings.FrameDimensionsX
  let h := env.settings.FrameDimensionsY
  let overlay := currentFrame.map (fun _ =>
    ( horizonCenter w h env.attitude.Pitch
    , horizonLeftPoint w h env.attitude.Pitch env.cosRoll env.sinRoll
    , horizonRightPoint w h env.attitude.Pitch env.cosRoll env.sinRoll ))
  ( { st with
      frame := frame
      currentFrame := currentFrame
      lastFrame := currentFrame
      timeval := st.timeval + env.procTicks }
  , { wakeTarget := wakeTarget
      grabbed := grabbed
      retrieved := grabbed
      fusionInputX := 0
      releasedLast := st.lastFrame.isSome
      overlay := overlay
      displayed := currentFrame.isSome } )

/-- Startup portion of slamTask before the main loop (slam.c lines 117-146):
frame = 0, the priming grab and retrieve when a video source opened
(currentFrame stays NULL otherwise), the clone into lastFrame when a frame
was retrieved, the recorded start tick, and the per-frame increment computed
once from the frame rate of the settings snapshot at task start. -/
def slamTaskInit (vs : Option ℕ) (primedFrame : Option ℕ) (startTime : ℕ)
    (settingsAtStart : SLAMSettingsData) : SlamTaskState :=
  let currentFrame := if vs.isSome then primedFrame else none
  { frame := 0
    startTime := startTime
    increment := computeIncrement settingsAtStart.FrameRate
    currentFrame := currentFrame
    lastFrame := currentFrame
    videoSource := vs
    timeval := 0 }

/-- slam.c lines 134-135: when a video source opened, the configured frame
dimensions pushed to it via cvSetCaptureProperty at startup, taken from the
settings snapshot at task start; nothing is pushed for a NULL source. -/
def initialCaptureDims (vs : Option ℕ) (settingsAtStart : SLAMSettingsData) :
    Option (ℚ × ℚ) :=
  vs.map (fun _ => (settingsAtStart.FrameDimensionsX, settingsAtStart.FrameDimensionsY))

/-- State after n passes of the main loop, where envs k supplies the external
inputs of pass k (0-indexed; pass k is loop iteration k+1). -/
def slamRun (envs : ℕ → IterEnv) (st : SlamTaskState) : ℕ → SlamTaskState
  | 0 => st
  | n + 1 => (slamStep (envs n) (slamRun envs st n)).1

/-- Effects of loop iteration n+1 (the pass taking the state after n passes). -/
def slamIterEffects (envs : ℕ → IterEnv) (st : SlamTaskState) (n : ℕ) : IterEffects :=
  (slamStep (envs n) (slamRun envs st n)).2

/-- slam.c lines 224-228: the settings callback re-reads the whole settings
object from the bus into the global snapshot (SLAMSettingsGet overwrites the
complete record); the result is the bus value, independent of the previous
snapshot. -/
def SettingsUpdatedCb (busValue : SLAMSettingsData)
    (_oldSnapshot : SLAMSettingsData) : SLAMSettingsData :=
  busValue

/-- slam.c lines 150-152: the startup handshake reads the attitude sample,
sets Pitch to the sentinel 100 and writes the sample back, leaving the other
fields as read. -/
def sentinelWrite (a : AttitudeActualData) : AttitudeActualData :=
  { a with Pitch := 100 }

/-- slam.c line 153: while (attitudeActual.Pitch==100) AttitudeActualGet(...).
Fuel-bounded unrolling of the busy-poll: reads k is the pitch returned by the
k-th AttitudeActualGet inside the loop; the result is the index of the read
that exits the loop, or none if the loop is still spinning after fuel reads.
The local pitch is 100 when the loop is entered, so the body runs at least
once. -/
def handshakePoll (reads : ℕ → ℚ) : ℕ → ℕ → Option ℕ
  | _, 0 => none
  | idx, fuel + 1 =>
    if reads idx = 100 then handshakePoll reads (idx + 1) fuel else some idx

/-- The handshake busy-poll started at the first loop read. -/
def handshakeExit (reads : ℕ → ℚ) (fuel : ℕ) : Option ℕ :=
  handshakePoll reads 0 fuel

/-- Hardware setup steps of PIOS_Board_Init (pios_board.c lines 48-80), in
source order: PIOS_DELAY_Init, the LED configuration lookup
PIOS_BOARD_HW_DEFS_GetLedCfg, PIOS_LED_Init, the CRC clock enable
RCC_AHBPeriphClockCmd, PIOS_USART_Init, PIOS_COM_MSG_Init. -/
inductive BoardInitStep
  | delayInit
  | ledCfgGet
  | ledInit
  | crcClockEnable
  | usartInit
  | comMsgInit
deriving DecidableEq, Repr

/-- The full ordered list of hardware setup steps of one real bring-up. -/
def fullInitSteps : List BoardInitStep :=
  [BoardInitStep.delayInit, BoardInitStep.ledCfgGet, BoardInitStep.ledInit,
   BoardInitStep.crcClockEnable, BoardInitStep.usartInit, BoardInitStep.comMsgInit]

/-- Driver-layer collaborators of the bring-up (external code): the LED
configuration returned by the board HW defs lookup (none models a NULL
configuration, which trips PIOS_Assert), the usart id produced by
PIOS_USART_Init (none models a nonzero failure return, which trips
PIOS_Assert(0)), and the com channel id produced by PIOS_COM_MSG_Init from
the usart id (none models failure, again PIOS_Assert(0)). -/
structure BoardEnv where
  ledCfg : Option ℕ
  usartInitResult : Option ℕ
  comMsgInitResult : ℕ → Option ℕ

/-- Observable state of the bring-up: the board_init_complete guard flag of
pios_board.c line 47 and the exported com channel id PIOS_COM_TELEM_USB of
line 39. -/
structure BoardState where
  board_init_complete : Bool
  PIOS_COM_TELEM_USB : ℕ
deriving DecidableEq, Repr

/-- pios_board.c lines 70-80: setupCom initializes the generic usart and
layers the message channel on it, asserting (system halt, modelled by none)
on either failure; on success it yields the new com id and the two steps it
performed. -/
def setupCom (env : BoardEnv) : Option (ℕ × List BoardInitStep) :=
  match env.usartInitResult with
  | none => none
  | some usartId =>
    match env.comMsgInitResult usartId with
    | none => none
    | some comId => some (comId, [BoardInitStep.usartInit, BoardInitStep.comMsgInit])

/-- pios_board.c lines 48-68: PIOS_Board_Init returns immediately when the
guard flag is already set (no steps, state untouched); otherwise it runs the
delay init, the LED configuration lookup and LED init (asserting on a NULL
configuration), the CRC clock enable and setupCom, then sets the guard flag.
The result is none when a PIOS_Assert halts the system, otherwise the new
state and the list of hardware setup steps executed. -/
def PIOS_Board_Init (env : BoardEnv) (st : BoardState) :
    Option (BoardState × List BoardInitStep) :=
  if st.board_init_complete then
    some (st, [])
  else
    match env.ledCfg with
    | none => none
    | some _ =>
      match setupCom env with
      | none => none
      | some (comId, comSteps) =>
        some ({ board_init_complete := true, PIOS_COM_TELEM_USB := comId },
          [BoardInitStep.delayInit, BoardInitStep.ledCfgGet, BoardInitStep.ledInit,
           BoardInitStep.crcClockEnable] ++ comSteps)

/-- A concrete settings snapshot used by witnesses: 640 x 480 at 30 frames
per second. -/
def settings640 : SLAMSettingsData :=
  { FrameDimensionsX := 640, FrameDimensionsY := 480, FrameRate := 30 }

/-- A concrete per-iteration input with no retrieved frame, used by
witnesses and counterexamples. -/
def envNoFrame : IterEnv :=
  { attitude := { Roll := 0, Pitch := 0, Yaw := 0 }
    settings := settings640
    retrievedFrame := none
    cosRoll := 1
    sinRoll := 0
    procTicks := 1 }

/-- A concrete per-iteration input that retrieves frame 0, used by the C10
witness; its settings snapshot differs from settings640 to show that the
overlay follows the snapshot of the iteration. -/
def envWithFrame : IterEnv :=
  { attitude := { Roll := 0, Pitch := 5, Yaw := 0 }
    settings := { FrameDimensionsX := 320, FrameDimensionsY := 240, FrameRate := 25 }
    retrievedFrame := some 0
    cosRoll := 1
    sinRoll := 0
    procTicks := 1 }

/-- A concrete successful driver environment for the bring-up witness. -/
def boardEnvOk : BoardEnv :=
  { ledCfg := some 0
    usartInitResult := some 7
    comMsgInitResult := fun usartId => some (usartId + 1) }

/-- C4: for all pitch in [-60, 60] and all frame dimensions, the overlay
center computed by the loop body is (w/2, h/2 + pitch*h/60); its vertical
offset from h/2 is exactly pitch * h / 60. -/
theorem horizonCenter_c4 (w h pitch : ℝ) (hlo : -60 ≤ pitch) (hhi : pitch ≤ 60) :
    (horizonCenter w h pitch).x = w / 2 ∧
    (horizonCenter w h pitch).y - h / 2 = pitch * h / 60 := by
  constructor
  · rfl
  · simp only [horizonCenter, cvPoint]
    ring

/-- Witness for C4 at pitch = 30, width 640, height 480. -/
theorem horizonCenter_c4_witness :
    (horizonCenter (640 : ℝ) 480 30).x = 640 / 2 ∧
    (horizonCenter (640 : ℝ) 480 30).y - 480 / 2 = 30 * 480 / 60 :=
  horizonCenter_c4 640 480 30 (by norm_num) (by norm_num)

/-- C5: for every roll angle (in degrees; DEG2RAD converts to radians) the
endpoint offsets mirror through the center, and the common offset magnitude
is min(width, height) / 3, for nonnegative frame dimensions. -/
theorem horizonMirror_c5 (w h pitch roll : ℝ) (hw : 0 ≤ w) (hh : 0 ≤ h) :
    (horizonRightPoint w h pitch (Real.cos (Real.pi / 180 * roll))
        (Real.sin (Real.pi / 180 * roll))).x - (horizonCenter w h pitch).x =
      (horizonCenter w h pitch).x - (horizonLeftPoint w h pitch
        (Real.cos (Real.pi / 180 * roll)) (Real.sin (Real.pi / 180 * roll))).x ∧
    (horizonRightPoint w h pitch (Real.cos (Real.pi / 180 * roll))
        (Real.sin (Real.pi / 180 * roll))).y - (horizonCenter w h pitch).y =
      (horizonCenter w h pitch).y - (horizonLeftPoint w h pitch
        (Real.cos (Real.pi / 180 * roll)) (Real.sin (Real.pi / 180 * roll))).y ∧
    Real.sqrt (((horizonRightPoint w h pitch (Real.cos (Real.pi / 180 * roll))
        (Real.sin (Real.pi / 180 * roll))).x - (horizonCenter w h pitch).x) ^ 2 +
      ((horizonRightPoint w h pitch (Real.cos (Real.pi / 180 * roll))
        (Real.sin (Real.pi / 180 * roll))).y - (horizonCenter w h pitch).y) ^ 2) =
      min w h / 3 := by
  have hmin : (0 : ℝ) ≤ min w h := le_min hw hh
  have hpyth : Real.sin (Real.pi / 180 * roll) ^ 2 +
      Real.cos (Real.pi / 180 * roll) ^ 2 = 1 :=
    Real.sin_sq_add_cos_sq _
  refine ⟨by simp only [horizonRightPoint, horizonLeftPoint, horizonRightOffset,
      horizonCenter, cvPoint]; ring,
    by simp only [horizonRightPoint, horizonLeftPoint, horizonRightOffset,
      horizonCenter, cvPoint]; ring, ?_⟩
  have hsq : ((horizonRightPoint w h pitch (Real.cos (Real.pi / 180 * roll))
        (Real.sin (Real.pi / 180 * roll))).x - (horizonCenter w h pitch).x) ^ 2 +
      ((horizonRightPoint w h pitch (Real.cos (Real.pi / 180 * roll))
        (Real.sin (Real.pi / 180 * roll))).y - (horizonCenter w h pitch).y) ^ 2 =
      (min w h / 3) ^ 2 := by
    simp only [horizonRightPoint, horizonRightOffset, horizonCenter, cvPoint]
    linear_combination (min w h ^ 2 / 9) * hpyth
  rw [hsq]
  exact Real.sqrt_sq (by positivity)

/-- Witness for C5 at width 640, height 480, pitch 0, roll 0. -/
theorem horizonMirror_c5_witness :
    (horizonRightPoint (640 : ℝ) 480 0 (Real.cos (Real.pi / 180 * 0))
        (Real.sin (Real.pi / 180 * 0))).x - (horizonCenter (640 : ℝ) 480 0).x =
      (horizonCenter (640 : ℝ) 480 0).x - (horizonLeftPoint (640 : ℝ) 480 0
        (Real.cos (Real.pi / 180 * 0)) (Real.sin (Real.pi / 180 * 0))).x ∧
    (horizonRightPoint (640 : ℝ) 480 0 (Real.cos (Real.pi / 180 * 0))
        (Real.sin (Real.pi / 180 * 0))).y - (horizonCenter (640 : ℝ) 480 0).y =
      (horizonCenter (640 : ℝ) 480 0).y - (horizonLeftPoint (640 : ℝ) 480 0
        (Real.cos (Real.pi / 180 * 0)) (Real.sin (Real.pi / 180 * 0))).y ∧
    Real.sqrt (((horizonRightPoint (640 : ℝ) 480 0 (Real.cos (Real.pi / 180 * 0))
        (Real.sin (Real.pi / 180 * 0))).x - (horizonCenter (640 : ℝ) 480 0).x) ^ 2 +
      ((horizonRightPoint (640 : ℝ) 480 0 (Real.cos (Real.pi / 180 * 0))
        (Real.sin (Real.pi / 180 * 0))).y - (horizonCenter (640 : ℝ) 480 0).y) ^ 2) =
      min (640 : ℝ) 480 / 3 :=
  horizonMirror_c5 640 480 0 0 (by norm_num) (by norm_num)

/-- C6: at roll = 0 the horizon line is horizontal (equal y coordinates of
the endpoints) and at roll = 90 it is vertical (equal x coordinates), for
every frame width, height and pitch. -/
theorem horizonLevel_c6 (w h pitch : ℝ) :
    (horizonRightPoint w h pitch (Real.cos (Real.pi / 180 * 0))
        (Real.sin (Real.pi / 180 * 0))).y =
      (horizonLeftPoint w h pitch (Real.cos (Real.pi / 180 * 0))
        (Real.sin (Real.pi / 180 * 0))).y ∧
    (horizonRightPoint w h pitch (Real.cos (Real.pi / 180 * 90))
        (Real.sin (Real.pi / 180 * 90))).x =
      (horizonLeftPoint w h pitch (Real.cos (Real.pi / 180 * 90))
        (Real.sin (Real.pi / 180 * 90))).x := by
  have h0 : Real.pi / 180 * 0 = 0 := by ring
  have h90 : Real.pi / 180 * 90 = Real.pi / 2 := by ring
  constructor
  · rw [h0, Real.sin_zero]
    simp only [horizonRightPoint, horizonLeftPoint, horizonRightOffset,
      horizonCenter, cvPoint]
    ring
  · rw [h90, Real.cos_pi_div_two]
    simp only [horizonRightPoint, horizonLeftPoint, horizonRightOffset,
      horizonCenter, cvPoint]
    ring

/-- The main loop never writes startTime. -/
theorem slamRun_startTime (envs : ℕ → IterEnv) (st : SlamTaskState) :
    ∀ n, (slamRun envs st n).startTime = st.startTime := by
  intro n
  induction n with
  | zero => rfl
  | succ n ih => simpa [slamRun, slamStep] using ih

/-- The main loop never writes the per-frame increment. -/
theorem slamRun_increment (envs : ℕ → IterEnv) (st : SlamTaskState) :
    ∀ n, (slamRun envs st n).increment = st.increment := by
  intro n
  induction n with
  | zero => rfl
  | succ n ih => simpa [slamRun, slamStep] using ih

/-- The main loop never writes the video source pointer. -/
theorem slamRun_videoSource (envs : ℕ → IterEnv) (st : SlamTaskState) :
    ∀ n, (slamRun envs st n).videoSource = st.videoSource := by
  intro n
  induction n with
  | zero => rfl
  | succ n ih => simpa [slamRun, slamStep] using ih

/-- Closed form of the uint32 frame counter after n loop passes. -/
theorem slamRun_frame (envs : ℕ → IterEnv) (st : SlamTaskState)
    (h : st.frame < UINT32_MOD) :
    ∀ n, (slamRun envs st n).frame = (st.frame + n) % UINT32_MOD := by
  intro n
  induction n with
  | zero => simp [slamRun, Nat.mod_eq_of_lt h]
  | succ n ih =>
    show (slamStep (envs n) (slamRun envs st n)).1.frame = _
    simp only [slamStep]
    rw [ih, Nat.mod_add_mod, Nat.add_assoc]

/-- With a NULL video source the current frame pointer stays NULL forever. -/
theorem slamRun_currentFrame_none (envs : ℕ → IterEnv) (st : SlamTaskState)
    (hvs : st.videoSource = none) (hcf : st.currentFrame = none) :
    ∀ n, (slamRun envs st n).currentFrame = none := by
  intro n
  induction n with
  | zero => exact hcf
  | succ n ih =>
    show (slamStep (envs n) (slamRun envs st n)).1.currentFrame = none
    simp only [slamStep]
    rw [slamRun_videoSource envs st n, hvs]
    simpa using ih

/-- If every read inside the busy-poll returns the sentinel, the poll never
produces an exit index, whatever the fuel and start index. -/
theorem handshakePoll_eq_none (reads : ℕ → ℚ) (hall : ∀ n, reads n = 100) :
    ∀ fuel idx, handshakePoll reads idx fuel = none := by
  intro fuel
  induction fuel with
  | zero => intro idx; rfl
  | succ fuel ih =>
    intro idx
    simp only [handshakePoll, hall idx, if_pos rfl]
    exact ih (idx + 1)

/-- When the busy-poll exits at index m, the read at m differs from the
sentinel and every read from the start index up to m returned the sentinel. -/
theorem handshakePoll_eq_some (reads : ℕ → ℚ) :
    ∀ fuel idx m, handshakePoll reads idx fuel = some m →
      reads m ≠ 100 ∧ idx ≤ m ∧ ∀ k, idx ≤ k → k < m → reads k = 100 := by
  intro fuel
  induction fuel with
  | zero => intro idx m h; exact absurd h (by simp [handshakePoll])
  | succ fuel ih =>
    intro idx m h
    simp only [handshakePoll] at h
    by_cases hr : reads idx = 100
    · rw [if_pos hr] at h
      obtain ⟨hne, hle, hmid⟩ := ih (idx + 1) m h
      refine ⟨hne, by omega, ?_⟩
      intro k hk1 hk2
      rcases Nat.eq_or_lt_of_le hk1 with heq | hlt
      · exact heq ▸ hr
      · exact hmid k hlt hk2
    · rw [if_neg hr] at h
      obtain rfl := Option.some_injective _ h
      exact ⟨hr, le_refl _, fun k hk1 hk2 => absurd (lt_of_le_of_lt hk1 hk2) (lt_irrefl _)⟩

/-- On success, setupCom always reports exactly the usart and com-message
initialization steps. -/
theorem setupCom_steps (env : BoardEnv) (comId : ℕ) (comSteps : List BoardInitStep)
    (h : setupCom env = some (comId, comSteps)) :
    comSteps = [BoardInitStep.usartInit, BoardInitStep.comMsgInit] := by
  unfold setupCom at h
  cases hu : env.usartInitResult with
  | none => simp [hu] at h
  | some usartId =>
    simp only [hu] at h
    cases hc : env.comMsgInitResult usartId with
    | none => simp [hc] at h
    | some newComId =>
      simp only [hc, Option.some.injEq, Prod.mk.injEq] at h
      exact h.2.symm

/-- C1 (amended): for every iteration N with 1 <= N < 2^32, the frame
counter after iteration N equals N, it exceeds the previous value of the
counter by exactly one, and the tick the loop suspends until at iteration N
is start + N * increment, for every sequence of external inputs and
iteration durations.  The uint32 counter wraps to 0 at iteration 2^32, so
the original unbounded claim fails there (see the counterexample). -/
theorem slamLoop_c1 (envs : ℕ → IterEnv) (vs primedFrame : Option ℕ) (t0 : ℕ)
    (s0 : SLAMSettingsData) (N : ℕ) (h1 : 1 ≤ N) (h2 : N < UINT32_MOD) :
    (slamRun envs (slamTaskInit vs primedFrame t0 s0) N).frame = N ∧
    (slamRun envs (slamTaskInit vs primedFrame t0 s0) N).frame =
      (slamRun envs (slamTaskInit vs primedFrame t0 s0) (N - 1)).frame + 1 ∧
    (slamIterEffects envs (slamTaskInit vs primedFrame t0 s0) (N - 1)).wakeTarget =
      t0 + N * computeIncrement s0.FrameRate := by
  have hfr0 : (slamTaskInit vs primedFrame t0 s0).frame = 0 := rfl
  have hlt : (slamTaskInit vs primedFrame t0 s0).frame < UINT32_MOD := by
    rw [hfr0]; norm_num [UINT32_MOD]
  have hN : (slamRun envs (slamTaskInit vs primedFrame t0 s0) N).frame = N := by
    rw [slamRun_frame envs _ hlt, hfr0, Nat.zero_add, Nat.mod_eq_of_lt h2]
  have hNm1 : (slamRun envs (slamTaskInit vs primedFrame t0 s0) (N - 1)).frame = N - 1 := by
    rw [slamRun_frame envs _ hlt, hfr0, Nat.zero_add, Nat.mod_eq_of_lt (by omega)]
  refine ⟨hN, by omega, ?_⟩
  show (slamStep (envs (N - 1)) (slamRun envs (slamTaskInit vs primedFrame t0 s0) (N - 1))).2.wakeTarget = _
  simp only [slamStep]
  rw [hNm1, slamRun_startTime, slamRun_increment]
  have : N - 1 + 1 = N := by omega
  rw [this, Nat.mod_eq_of_lt h2]
  rfl

/-- Counterexample to C1 as stated: after 2^32 iterations the uint32 frame
counter has wrapped to 0 although the previous iteration left it at
2^32 - 1, so the counter does not increase by one at every iteration and
does reset while the task runs. -/
theorem slamLoop_c1_counterexample :
    (slamRun (fun _ => envNoFrame) (slamTaskInit none none 0 settings640)
        UINT32_MOD).frame = 0 ∧
    (slamRun (fun _ => envNoFrame) (slamTaskInit none none 0 settings640)
        (UINT32_MOD - 1)).frame = UINT32_MOD - 1 ∧
    (0 : ℕ) ≠ (UINT32_MOD - 1) + 1 := by
  have hlt : (slamTaskInit none none 0 settings640).frame < UINT32_MOD := by
    norm_num [slamTaskInit, UINT32_MOD]
  refine ⟨?_, ?_, by norm_num [UINT32_MOD]⟩
  · rw [slamRun_frame _ _ hlt]
    norm_num [slamTaskInit, UINT32_MOD]
  · rw [slamRun_frame _ _ hlt]
    norm_num [slamTaskInit, UINT32_MOD]

/-- C2: the startup handshake writes the attitude sample back with Pitch set
to the sentinel 100 (other fields as read); the busy-poll produces an exit
index only at a read whose pitch differs from 100, with every earlier read
equal to 100; and when every read returns the pitch stored by the handshake
write (no external writer ever changes it), the poll yields no exit index
for any number of reads, so the main loop is never reached. -/
theorem handshake_c2 (a : AttitudeActualData) (reads : ℕ → ℚ)
    (hNoWriter : ∀ n, reads n = (sentinelWrite a).Pitch) :
    (sentinelWrite a).Pitch = 100 ∧
    (sentinelWrite a).Roll = a.Roll ∧
    (sentinelWrite a).Yaw = a.Yaw ∧
    (∀ fuel, handshakeExit reads fuel = none) ∧
    (∀ (readsB : ℕ → ℚ) (fuel m : ℕ), handshakeExit readsB fuel = some m →
      readsB m ≠ 100 ∧ ∀ k, k < m → readsB k = 100) := by
  refine ⟨rfl, rfl, rfl, ?_, ?_⟩
  · intro fuel
    exact handshakePoll_eq_none reads (fun n => hNoWriter n) fuel 0
  · intro readsB fuel m h
    obtain ⟨hne, _, hmid⟩ := handshakePoll_eq_some readsB fuel 0 m h
    exact ⟨hne, fun k hk => hmid k (Nat.zero_le k) hk⟩

/-- Witness for C2: with the sentinel stored and every read returning it,
the poll is still spinning after five reads. -/
theorem handshake_c2_witness :
    (sentinelWrite { Roll := 1, Pitch := 2, Yaw := 3 }).Pitch = 100 ∧
    handshakeExit (fun _ => 100) 5 = none :=
  ⟨(handshake_c2 { Roll := 1, Pitch := 2, Yaw := 3 } (fun _ => 100) (fun _ => rfl)).1,
   (handshake_c2 { Roll := 1, Pitch := 2, Yaw := 3 } (fun _ => 100) (fun _ => rfl)).2.2.2.1 5⟩

/-- C3 (amended): the per-frame tick increment is computed once at loop
start as the truncation (floor, for a positive rate) of 1000 / frame_rate
scheduler ticks - not the nearest integer - and is never recomputed while
the loop runs; for frame_rate = 30 it is 33 ticks. -/
theorem computeIncrement_c3 :
    (∀ (envs : ℕ → IterEnv) (vs primedFrame : Option ℕ) (t0 : ℕ)
        (s0 : SLAMSettingsData) (n : ℕ),
      (slamRun envs (slamTaskInit vs primedFrame t0 s0) n).increment =
        computeIncrement s0.FrameRate) ∧
    computeIncrement 30 = 33 ∧
    (∀ frameRate : ℚ,
      computeIncrement frameRate = (⌊(1000 : ℚ) / frameRate⌋).toNat) := by
  have h30 : computeIncrement 30 = 33 := by
    show (⌊(1000 : ℚ) / 30⌋).toNat = 33
    rw [show ⌊(1000 : ℚ) / 30⌋ = 33 by norm_num]
    rfl
  refine ⟨?_, h30, fun frameRate => rfl⟩
  intro envs vs primedFrame t0 s0 n
  rw [slamRun_increment]
  rfl

/-- Counterexample to C3 as stated: at frame_rate = 6 the code computes
floor(1000/6) = 166 ticks, while round(1000/6) = 167 ticks. -/
theorem computeIncrement_c3_counterexample :
    computeIncrement 6 = 166 ∧
    round ((1000 : ℚ) / 6) = 167 ∧
    (166 : ℕ) ≠ 167 := by
  have h6 : computeIncrement 6 = 166 := by
    show (⌊(1000 : ℚ) / 6⌋).toNat = 166
    rw [show ⌊(1000 : ℚ) / 6⌋ = 166 by norm_num]
    rfl
  refine ⟨h6, ?_, by norm_num⟩
  rw [round_eq]
  norm_num

/-- C7: whenever PIOS_Board_Init returns (is not halted by an assert), the
guard flag is set afterwards; every later call, under any driver
environment, returns immediately with the state (including the exported com
channel id) unchanged and no hardware setup steps; a call that found the
flag already set changed nothing and ran no steps; and a call that found
the flag clear ran exactly the full ordered bring-up step list. -/
theorem boardInit_c7 (env : BoardEnv) (st stNew : BoardState)
    (steps : List BoardInitStep)
    (hrun : PIOS_Board_Init env st = some (stNew, steps)) :
    stNew.board_init_complete = true ∧
    (∀ envLater : BoardEnv, PIOS_Board_Init envLater stNew = some (stNew, [])) ∧
    (st.board_init_complete = true → stNew = st ∧ steps = []) ∧
    (st.board_init_complete = false → steps = fullInitSteps) := by
  by_cases hflag : st.board_init_complete
  · rw [PIOS_Board_Init, if_pos hflag] at hrun
    simp only [Option.some.injEq, Prod.mk.injEq] at hrun
    obtain ⟨rfl, rfl⟩ := hrun
    exact ⟨hflag, fun envLater => by rw [PIOS_Board_Init, if_pos hflag],
      fun _ => ⟨rfl, rfl⟩, fun habs => absurd hflag (by simp [habs])⟩
  · rw [PIOS_Board_Init, if_neg hflag] at hrun
    cases hl : env.ledCfg with
    | none => simp [hl] at hrun
    | some cfg =>
      simp only [hl] at hrun
      cases hsc : setupCom env with
      | none => simp [hsc] at hrun
      | some pair =>
        obtain ⟨comId, comSteps⟩ := pair
        simp only [hsc, Option.some.injEq, Prod.mk.injEq] at hrun
        obtain ⟨rfl, rfl⟩ := hrun
        have hcs := setupCom_steps env comId comSteps hsc
        refine ⟨rfl, ?_, fun habs => absurd habs (by simp [hflag]), ?_⟩
        · intro envLater
          rw [PIOS_Board_Init, if_pos rfl]
        · intro _
          rw [hcs]
          rfl

/-- Witness for C7: a successful first bring-up under a concrete driver
environment, then a second call that is a no-op with the com id intact. -/
theorem boardInit_c7_witness :
    ({ board_init_complete := true, PIOS_COM_TELEM_USB := 8 } : BoardState).board_init_complete = true ∧
    PIOS_Board_Init boardEnvOk { board_init_complete := true, PIOS_COM_TELEM_USB := 8 } =
      some ({ board_init_complete := true, PIOS_COM_TELEM_USB := 8 }, []) :=
  ⟨(boardInit_c7 boardEnvOk { board_init_complete := false, PIOS_COM_TELEM_USB := 0 }
      { board_init_complete := true, PIOS_COM_TELEM_USB := 8 } fullInitSteps rfl).1,
   (boardInit_c7 boardEnvOk { board_init_complete := false, PIOS_COM_TELEM_USB := 0 }
      { board_init_complete := true, PIOS_COM_TELEM_USB := 8 } fullInitSteps rfl).2.1 boardEnvOk⟩

/-- C8: with a NULL video source (open failed) the loop still runs every
iteration in degraded mode: the frame counter still advances by one (modulo
2^32) each pass, no grab and no retrieve happen, no overlay is drawn and
nothing is shown in any iteration, the fusion step is still invoked with the
zeroed input, and every pass is well defined (the loop neither crashes nor
exits). -/
theorem slamDegraded_c8 (envs : ℕ → IterEnv) (primedFrame : Option ℕ)
    (t0 : ℕ) (s0 : SLAMSettingsData) (n : ℕ) :
    (slamRun envs (slamTaskInit none primedFrame t0 s0) n).frame = n % UINT32_MOD ∧
    (slamRun envs (slamTaskInit none primedFrame t0 s0) n).currentFrame = none ∧
    (slamIterEffects envs (slamTaskInit none primedFrame t0 s0) n).grabbed = false ∧
    (slamIterEffects envs (slamTaskInit none primedFrame t0 s0) n).retrieved = false ∧
    (slamIterEffects envs (slamTaskInit none primedFrame t0 s0) n).overlay = none ∧
    (slamIterEffects envs (slamTaskInit none primedFrame t0 s0) n).displayed = false ∧
    (slamIterEffects envs (slamTaskInit none primedFrame t0 s0) n).fusionInputX = 0 ∧
    (slamRun envs (slamTaskInit none primedFrame t0 s0) (n + 1)).frame =
      ((n % UINT32_MOD) + 1) % UINT32_MOD := by
  have hvs : (slamTaskInit none primedFrame t0 s0).videoSource = none := rfl
  have hcf : (slamTaskInit none primedFrame t0 s0).currentFrame = none := rfl
  have hlt : (slamTaskInit none primedFrame t0 s0).frame < UINT32_MOD := by
    norm_num [slamTaskInit, UINT32_MOD]
  have hframe : ∀ m, (slamRun envs (slamTaskInit none primedFrame t0 s0) m).frame =
      m % UINT32_MOD := by
    intro m
    rw [slamRun_frame envs _ hlt m,
      show (slamTaskInit none primedFrame t0 s0).frame = 0 from rfl, Nat.zero_add]
  have hcur := slamRun_currentFrame_none envs _ hvs hcf
  have hvsn := slamRun_videoSource envs (slamTaskInit none primedFrame t0 s0) n
  refine ⟨hframe n, hcur n, ?_, ?_, ?_, ?_, ?_, ?_⟩
  · show (slamStep (envs n) _).2.grabbed = false
    simp only [slamStep]
    rw [hvsn, hvs]
    rfl
  · show (slamStep (envs n) _).2.retrieved = false
    simp only [slamStep]
    rw [hvsn, hvs]
    rfl
  · show (slamStep (envs n) _).2.overlay = none
    simp only [slamStep]
    rw [hvsn, hvs]
    simp [hcur n]
  · show (slamStep (envs n) _).2.displayed = false
    simp only [slamStep]
    rw [hvsn, hvs]
    simp [hcur n]
  · rfl
  · rw [hframe (n + 1), Nat.mod_add_mod]

/-- C9: the settings callback synchronously replaces the whole settings
snapshot with the bus value, while the per-frame increment of a running
loop stays the one computed at loop start from the frame rate configured at
that time, and every wake target is still computed from that original
increment - for every sequence of per-iteration settings snapshots. -/
theorem settingsCb_c9 :
    (∀ busValue oldSnapshot : SLAMSettingsData,
      SettingsUpdatedCb busValue oldSnapshot = busValue) ∧
    (∀ (envs : ℕ → IterEnv) (vs primedFrame : Option ℕ) (t0 : ℕ)
        (s0 : SLAMSettingsData) (n : ℕ),
      (slamRun envs (slamTaskInit vs primedFrame t0 s0) n).increment =
        computeIncrement s0.FrameRate ∧
      (slamIterEffects envs (slamTaskInit vs primedFrame t0 s0) n).wakeTarget =
        t0 + ((n + 1) % UINT32_MOD) * computeIncrement s0.FrameRate) := by
  refine ⟨fun busValue oldSnapshot => rfl, ?_⟩
  intro envs vs primedFrame t0 s0 n
  have hlt : (slamTaskInit vs primedFrame t0 s0).frame < UINT32_MOD := by
    norm_num [slamTaskInit, UINT32_MOD]
  constructor
  · rw [slamRun_increment]
    rfl
  · show (slamStep (envs n) _).2.wakeTarget = _
    simp only [slamStep]
    rw [slamRun_frame envs _ hlt n, slamRun_startTime, slamRun_increment,
      show (slamTaskInit vs primedFrame t0 s0).frame = 0 from rfl, Nat.zero_add,
      Nat.mod_add_mod]
    rfl

/-- C10: in an iteration whose retrieve yields a frame, the overlay geometry
is computed from the frame dimensions of the settings snapshot as it stands
at that iteration (which the settings callback may have rewritten since task
start), while the per-frame increment and the dimensions pushed to the
video source at startup stay those of the snapshot at task start. -/
theorem overlayLive_c10 (envs : ℕ → IterEnv) (vsrc : ℕ) (primedFrame : Option ℕ)
    (t0 : ℕ) (s0 : SLAMSettingsData) (n : ℕ) (f : ℕ)
    (hret : (envs n).retrievedFrame = some f) :
    (slamIterEffects envs (slamTaskInit (some vsrc) primedFrame t0 s0) n).overlay =
      some
        ( horizonCenter (envs n).settings.FrameDimensionsX
            (envs n).settings.FrameDimensionsY (envs n).attitude.Pitch
        , horizonLeftPoint (envs n).settings.FrameDimensionsX
            (envs n).settings.FrameDimensionsY (envs n).attitude.Pitch
            (envs n).cosRoll (envs n).sinRoll
        , horizonRightPoint (envs n).settings.FrameDimensionsX
            (envs n).settings.FrameDimensionsY (envs n).attitude.Pitch
            (envs n).cosRoll (envs n).sinRoll ) ∧
    (slamRun envs (slamTaskInit (some vsrc) primedFrame t0 s0) n).increment =
      computeIncrement s0.FrameRate ∧
    initialCaptureDims (some vsrc) s0 =
      some (s0.FrameDimensionsX, s0.FrameDimensionsY) := by
  refine ⟨?_, ?_, rfl⟩
  · show (slamStep (envs n) _).2.overlay = _
    simp only [slamStep]
    rw [slamRun_videoSource envs _ n,
      show (slamTaskInit (some vsrc) primedFrame t0 s0).videoSource = some vsrc from rfl]
    simp [hret]
  · rw [slamRun_increment]
    rfl

/-- Witness for C10: first iteration with a retrieved frame under a
settings snapshot that differs from the one at task start. -/
theorem overlayLive_c10_witness :
    (slamIterEffects (fun _ => envWithFrame)
        (slamTaskInit (some 1) none 0 settings640) 0).overlay =
      some
        ( horizonCenter envWithFrame.settings.FrameDimensionsX
            envWithFrame.settings.FrameDimensionsY envWithFrame.attitude.Pitch
        , horizonLeftPoint envWithFrame.settings.FrameDimensionsX
            envWithFrame.settings.FrameDimensionsY envWithFrame.attitude.Pitch
            envWithFrame.cosRoll envWithFrame.sinRoll
        , horizonRightPoint envWithFrame.settings.FrameDimensionsX
            envWithFrame.settings.FrameDimensionsY envWithFrame.attitude.Pitch
            envWithFrame.cosRoll envWithFrame.sinRoll ) ∧
    (slamRun (fun _ => envWithFrame) (slamTaskInit (some 1) none 0 settings640) 0).increment =
      computeIncrement settings640.FrameRate ∧
    initialCaptureDims (some 1) settings640 =
      some (settings640.FrameDimensionsX, settings640.FrameDimensionsY) :=
  overlayLive_c10 (fun _ => envWithFrame) 1 none 0 settings640 0 0 rfl

/-- Witness for C1 at iteration N = 2 with start tick 5 and the 640x480
at 30 frames per second settings. -/
theorem slamLoop_c1_witness :
    (slamRun (fun _ => envNoFrame) (slamTaskInit none none 5 settings640) 2).frame = 2 ∧
    (slamRun (fun _ => envNoFrame) (slamTaskInit none none 5 settings640) 2).frame =
      (slamRun (fun _ => envNoFrame) (slamTaskInit none none 5 settings640) 1).frame + 1 ∧
    (slamIterEffects (fun _ => envNoFrame) (slamTaskInit none none 5 settings640) 1).wakeTarget =
      5 + 2 * computeIncrement settings640.FrameRate :=
  slamLoop_c1 (fun _ => envNoFrame) none none 5 settings640 2 (by norm_num)
    (by norm_num [UINT32_MOD])
